import Mathlib

/-!
# Verification of `worker.js` (cross-channel reply blocker)

Shallow embedding of the Cloudflare-Worker Telegram bot in `src/worker.js`.
JavaScript values that the code tests for truthiness are modelled with
`Option` types together with explicit JS-truthiness predicates
(`0`, `""`, `null`/absent are falsy).  Stateful parts (rate-limit tracker,
chat-info cache) are modelled by explicit state passing; remote calls are
modelled by outcome oracles, and the sequence of outbound effects is
returned as an explicit trace.
-/

set_option autoImplicit false

namespace Worker

/-- JS truthiness of an optional number field: absent, `0` (and `NaN`,
not modelled) are falsy. -/
def jsTruthyInt : Option Int → Bool
  | none => false
  | some n => n != 0

/-- JS truthiness of an optional string field: absent and `""` are falsy. -/
def jsTruthyStr : Option String → Bool
  | none => false
  | some s => s != ""

/-- JS `a.includes(b)` on strings (computed on the character lists). -/
def strIncludes (s sub : String) : Bool :=
  (List.range (s.data.length + 1)).any (fun i => sub.data.isPrefixOf (s.data.drop i))

/-- Configuration constants (`CONFIG` in worker.js).  Kept as a structure so
that theorems can quantify over window/limit/TTL values; `defaultConfig`
holds the literal values of the source. -/
structure Config where
  WARNING_MESSAGE_TEXT : String
  WARNING_AUTO_DELETE_DELAY : Int
  REQUEST_TIMEOUT : Int
  MAX_RETRIES : Nat
  CACHE_TTL : Int
  RATE_LIMIT_WINDOW : Int
  MAX_REQUESTS_PER_WINDOW : Nat

def defaultConfig : Config :=
  { WARNING_MESSAGE_TEXT := "⚠️ 本群禁止跨频道回复内容"
    WARNING_AUTO_DELETE_DELAY := 10000
    REQUEST_TIMEOUT := 30000
    MAX_RETRIES := 3
    CACHE_TTL := 300000
    RATE_LIMIT_WINDOW := 60000
    MAX_REQUESTS_PER_WINDOW := 30 }

/-! ## Data model -/

/-- A Telegram `Chat` object as used by the classifier. -/
structure Chat where
  id : Int
  type : String
  title : Option String
  username : Option String
deriving Repr, DecidableEq

/-- The `message.external_reply` object (only its `chat` field is used). -/
structure ExternalReply where
  chat : Option Chat
deriving Repr, DecidableEq

/-- The fields of `message.reply_to_message` inspected by the classifier. -/
structure ReplyToMessage where
  forward_from_chat : Option Chat
  sender_chat : Option Chat
  forward_sender_name : Option String
  forward_date : Option Int
  forward_signature : Option String
deriving Repr, DecidableEq

/-- A Telegram message, restricted to the fields the classifier reads. -/
structure Message where
  message_id : Int
  chat : Chat
  external_reply : Option ExternalReply
  reply_to_message : Option ReplyToMessage
deriving Repr, DecidableEq

/-- Chat metadata returned by `getChat` (only `linked_chat_id` is read). -/
structure ChatInfo where
  linked_chat_id : Option Int
deriving Repr, DecidableEq

/-- The `channelInfo` field of a classification result; all fields optional
because the initial value is the empty object `{}`. -/
structure ChannelInfo where
  id : Option Int
  title : Option String
  username : Option String
deriving Repr, DecidableEq

/-- `ClassificationResult` produced by `detectCrossChannelReply`. -/
structure ClassificationResult where
  isCrossChannel : Bool
  isExternal : Bool
  channelInfo : ChannelInfo
  replyType : String
deriving Repr, DecidableEq

/-- The initial `result` object of `detectCrossChannelReply`. -/
def initialResult : ClassificationResult :=
  { isCrossChannel := false
    isExternal := false
    channelInfo := { id := none, title := none, username := none }
    replyType := "none" }

/-- `externalChat.title || 'Unknown Channel'` and friends. -/
def jsOrStr (o : Option String) (dflt : String) : String :=
  match o with
  | none => dflt
  | some s => if s == "" then dflt else s

/-- `isLinkedChannel(groupChat, channelChatId)`:
`groupChat.linked_chat_id && groupChat.linked_chat_id === channelChatId`
(JS truthiness: an absent or zero `linked_chat_id` short-circuits to false). -/
def isLinkedChannel (groupChat : ChatInfo) (channelChatId : Int) : Bool :=
  jsTruthyInt groupChat.linked_chat_id &&
    groupChat.linked_chat_id == some channelChatId

/-- The `channelInfo` value built for a resolvable channel chat. -/
def channelInfoOf (c : Chat) : ChannelInfo :=
  { id := some c.id
    title := some (jsOrStr c.title "Unknown Channel")
    username := c.username }

/-- `detectCrossChannelReply(message, env)`.

The chat-metadata lookup (`getChatInfo`) is abstracted by the oracle
`lookup`; the second component of the returned pair is the trace of chat
ids for which the function invoked the lookup, in order.  Mirrors
worker.js lines 346-467: the lookup for the current chat happens once,
unconditionally, before the case analysis. -/
def detectCrossChannelReply (message : Message)
    (lookup : Int → Option ChatInfo) : ClassificationResult × List Int :=
  -- `currentChatInfo := getChatInfo(message.chat.id)` is retrieved once,
  -- unconditionally, before the case analysis; `[message.chat.id]` is the
  -- lookup trace of that single call.
  match message.external_reply with
  | some er =>
    -- Case 1: direct external reply; only acted upon for channel chats,
    -- otherwise control falls through to the reply_to_message cases.
    match er.chat with
    | some externalChat =>
      if externalChat.type == "channel" then
        ({ isCrossChannel := true
           isExternal :=
             !((lookup message.chat.id).isSome &&
               isLinkedChannel ((lookup message.chat.id).getD ⟨none⟩) externalChat.id)
           channelInfo := channelInfoOf externalChat
           replyType := "external_reply" }, [message.chat.id])
      else
        detectReply message.reply_to_message (lookup message.chat.id) [message.chat.id]
    | none =>
      detectReply message.reply_to_message (lookup message.chat.id) [message.chat.id]
  | none =>
    detectReply message.reply_to_message (lookup message.chat.id) [message.chat.id]
where
  /-- Case 2: inspection of `message.reply_to_message` (2a first). -/
  detectReply (rtm : Option ReplyToMessage)
      (currentChatInfo : Option ChatInfo) (calls : List Int) :
      ClassificationResult × List Int :=
    match rtm with
    | none => (initialResult, calls)
    | some replyToMessage =>
      -- Case 2a: reply to a message forwarded from a channel
      match replyToMessage.forward_from_chat with
      | some forwardChat =>
        if forwardChat.type == "channel" then
          ({ isCrossChannel := true
             isExternal :=
               !(currentChatInfo.isSome &&
                 isLinkedChannel (currentChatInfo.getD ⟨none⟩) forwardChat.id)
             channelInfo := channelInfoOf forwardChat
             replyType := "forward_from_channel" }, calls)
        else
          detectRest replyToMessage currentChatInfo calls
      | none => detectRest replyToMessage currentChatInfo calls
  /-- Cases 2b-2d plus the fall-through default. -/
  detectRest (replyToMessage : ReplyToMessage)
      (currentChatInfo : Option ChatInfo) (calls : List Int) :
      ClassificationResult × List Int :=
    -- Case 2b: reply to a message sent by a channel
    match replyToMessage.sender_chat with
    | some senderChat =>
      if senderChat.type == "channel" then
        ({ isCrossChannel := true
           isExternal :=
             !(currentChatInfo.isSome &&
               isLinkedChannel (currentChatInfo.getD ⟨none⟩) senderChat.id)
           channelInfo := channelInfoOf senderChat
           replyType := "sender_chat_channel" }, calls)
      else detectTail replyToMessage calls
    | none => detectTail replyToMessage calls
  /-- Cases 2c-2d plus the fall-through default. -/
  detectTail (replyToMessage : ReplyToMessage) (calls : List Int) :
      ClassificationResult × List Int :=
    -- Case 2c: reply to a forwarded message with hidden origin
    if jsTruthyStr replyToMessage.forward_sender_name ||
        jsTruthyInt replyToMessage.forward_date then
      ({ isCrossChannel := true
         isExternal := true
         channelInfo :=
           { id := none
             title := some (jsOrStr replyToMessage.forward_sender_name "Hidden Source")
             username := none }
         replyType := "hidden_forward" }, calls)
    -- Case 2d: reply to a message with channel signature
    else if jsTruthyStr replyToMessage.forward_signature then
      ({ isCrossChannel := true
         isExternal := true
         channelInfo :=
           { id := none
             title := some ("Channel (signature: " ++
               (replyToMessage.forward_signature.getD "") ++ ")")
             username := none }
         replyType := "channel_signature" }, calls)
    else
      (initialResult, calls)

/-! ## Classifier theorems -/

/-- Invariant shape of a classification result. -/
def ResultOK (r : ClassificationResult) : Prop :=
  (r.isExternal = true → r.isCrossChannel = true) ∧
  (r.replyType = "none" → r.isCrossChannel = false ∧ r.isExternal = false)

lemma resultOK_initial : ResultOK initialResult :=
  ⟨fun h => absurd h (by decide), fun _ => ⟨rfl, rfl⟩⟩

lemma resultOK_of_cross (r : ClassificationResult)
    (hc : r.isCrossChannel = true) (ht : r.replyType ≠ "none") : ResultOK r :=
  ⟨fun _ => hc, fun h => absurd h ht⟩

lemma resultOK_detectTail (rm : ReplyToMessage) (calls : List Int) :
    ResultOK (detectCrossChannelReply.detectTail rm calls).1 := by
  unfold detectCrossChannelReply.detectTail
  split
  · exact resultOK_of_cross _ rfl (by intro h; simp at h)
  · split
    · exact resultOK_of_cross _ rfl (by intro h; simp at h)
    · exact resultOK_initial

lemma resultOK_detectRest (rm : ReplyToMessage) (cinfo : Option ChatInfo)
    (calls : List Int) :
    ResultOK (detectCrossChannelReply.detectRest rm cinfo calls).1 := by
  unfold detectCrossChannelReply.detectRest
  split
  · split
    · exact resultOK_of_cross _ rfl (by intro h; simp at h)
    · exact resultOK_detectTail ..
  · exact resultOK_detectTail ..

lemma resultOK_detectReply (rtm : Option ReplyToMessage)
    (cinfo : Option ChatInfo) (calls : List Int) :
    ResultOK (detectCrossChannelReply.detectReply rtm cinfo calls).1 := by
  unfold detectCrossChannelReply.detectReply
  split
  · exact resultOK_initial
  · split
    · split
      · exact resultOK_of_cross _ rfl (by intro h; simp at h)
      · exact resultOK_detectRest ..
    · exact resultOK_detectRest ..

lemma resultOK_detect (msg : Message) (lookup : Int → Option ChatInfo) :
    ResultOK (detectCrossChannelReply msg lookup).1 := by
  unfold detectCrossChannelReply
  split
  · split
    · split
      · exact resultOK_of_cross _ rfl (by intro h; simp at h)
      · exact resultOK_detectReply ..
    · exact resultOK_detectReply ..
  · exact resultOK_detectReply ..

lemma detectTail_calls (rm : ReplyToMessage) (calls : List Int) :
    (detectCrossChannelReply.detectTail rm calls).2 = calls := by
  unfold detectCrossChannelReply.detectTail
  split
  · rfl
  · split <;> rfl

lemma detectRest_calls (rm : ReplyToMessage) (cinfo : Option ChatInfo)
    (calls : List Int) :
    (detectCrossChannelReply.detectRest rm cinfo calls).2 = calls := by
  unfold detectCrossChannelReply.detectRest
  split
  · split
    · rfl
    · exact detectTail_calls ..
  · exact detectTail_calls ..

lemma detectReply_calls (rtm : Option ReplyToMessage)
    (cinfo : Option ChatInfo) (calls : List Int) :
    (detectCrossChannelReply.detectReply rtm cinfo calls).2 = calls := by
  unfold detectCrossChannelReply.detectReply
  split
  · rfl
  · split
    · split
      · rfl
      · exact detectRest_calls ..
    · exact detectRest_calls ..

/-! ### C1: the direct external-reply rule -/

lemma isExternal_flag_iff (o : Option ChatInfo) (cid : Int) :
    (!(o.isSome && isLinkedChannel (o.getD ⟨none⟩) cid)) = false ↔
      ∃ info, o = some info ∧ info.linked_chat_id = some cid ∧ cid ≠ 0 := by
  cases o with
  | none => simp
  | some info =>
    cases hl : info.linked_chat_id with
    | none => simp [isLinkedChannel, jsTruthyInt, hl]
    | some l =>
      simp only [Option.isSome_some, Bool.true_and, Bool.not_eq_false',
        isLinkedChannel, jsTruthyInt, hl, Option.getD_some, Option.some.injEq]
      constructor
      · intro h
        rcases Bool.and_eq_true_iff.mp h with ⟨h1, h2⟩
        have hle : l = cid := by simpa using h2
        refine ⟨info, rfl, ?_, ?_⟩
        · rw [hl, hle]
        · subst hle; simpa using h1
      · rintro ⟨info', hinfo, hlc, hcid⟩
        cases hinfo
        rw [hl] at hlc
        have hle : l = cid := by simpa using hlc
        subst hle
        simp [hcid]

/-- **C1** (amended): for every message carrying a direct external-reply
reference whose chat has type `"channel"`, the classifier returns
`isCrossChannel = true`, and `isExternal = false` exactly when chat
metadata for the current chat is available and its linked-channel id is
present, non-zero (JS-truthy), and equals the referenced channel's id. -/
theorem c1_external_reply_linked_test (msg : Message)
    (lookup : Int → Option ChatInfo) (er : ExternalReply) (c : Chat)
    (her : msg.external_reply = some er) (hc : er.chat = some c)
    (hty : c.type = "channel") :
    (detectCrossChannelReply msg lookup).1.isCrossChannel = true ∧
    ((detectCrossChannelReply msg lookup).1.isExternal = false ↔
      ∃ info, lookup msg.chat.id = some info ∧
        info.linked_chat_id = some c.id ∧ c.id ≠ 0) := by
  unfold detectCrossChannelReply
  simp only [her, hc, hty, beq_self_eq_true, if_true]
  constructor
  · first
    | rfl
    | trivial
  · exact isExternal_flag_iff (lookup msg.chat.id) c.id

def c1WitChannel : Chat :=
  { id := -100123, type := "channel", title := some "Linked", username := none }

def c1WitMsg : Message :=
  { message_id := 500
    chat := { id := -200555, type := "supergroup", title := none, username := none }
    external_reply := some { chat := some c1WitChannel }
    reply_to_message := none }

def c1WitLookup : Int → Option ChatInfo := fun _ => some { linked_chat_id := some (-100123) }

theorem c1_external_reply_linked_test_witness :
    (detectCrossChannelReply c1WitMsg c1WitLookup).1.isCrossChannel = true ∧
    ((detectCrossChannelReply c1WitMsg c1WitLookup).1.isExternal = false ↔
      ∃ info, c1WitLookup c1WitMsg.chat.id = some info ∧
        info.linked_chat_id = some c1WitChannel.id ∧ c1WitChannel.id ≠ 0) :=
  c1_external_reply_linked_test c1WitMsg c1WitLookup _ c1WitChannel rfl rfl rfl

def c1CexChannel : Chat :=
  { id := 0, type := "channel", title := some "ZeroIdChannel", username := none }

def c1CexMsg : Message :=
  { message_id := 501
    chat := { id := -200555, type := "supergroup", title := none, username := none }
    external_reply := some { chat := some c1CexChannel }
    reply_to_message := none }

def c1CexLookup : Int → Option ChatInfo := fun _ => some { linked_chat_id := some 0 }

/-- **C1 counterexample**: chat metadata is available, its linked-channel id
is present and equals the referenced channel's id (both are `0`), yet the
classifier reports `isExternal = true`, because `isLinkedChannel` tests the
JS truthiness of `linked_chat_id` and `0` is falsy. -/
theorem c1_zero_id_counterexample :
    c1CexMsg.external_reply = some { chat := some c1CexChannel } ∧
    c1CexChannel.type = "channel" ∧
    c1CexLookup c1CexMsg.chat.id = some { linked_chat_id := some c1CexChannel.id } ∧
    (detectCrossChannelReply c1CexMsg c1CexLookup).1.isCrossChannel = true ∧
    (detectCrossChannelReply c1CexMsg c1CexLookup).1.isExternal = true :=
  ⟨rfl, rfl, rfl, by decide, by decide⟩

/-! ### C2: metadata lookups performed by the classifier -/

/-- **C2** (amended): the classifier performs exactly one chat-metadata
lookup — for the current chat — on every invocation, regardless of which
rule matches (in particular also for rules 4 and 5); it has no side
effects beyond that lookup. -/
theorem c2_classifier_always_one_lookup (msg : Message)
    (lookup : Int → Option ChatInfo) :
    (detectCrossChannelReply msg lookup).2 = [msg.chat.id] := by
  unfold detectCrossChannelReply
  split
  · split
    · split
      · rfl
      · exact detectReply_calls ..
    · exact detectReply_calls ..
  · exact detectReply_calls ..

def c2CexReply : ReplyToMessage :=
  { forward_from_chat := none
    sender_chat := none
    forward_sender_name := some "Hidden Source Name"
    forward_date := none
    forward_signature := none }

def c2CexMsg : Message :=
  { message_id := 502
    chat := { id := -200777, type := "supergroup", title := none, username := none }
    external_reply := none
    reply_to_message := some c2CexReply }

/-- **C2 counterexample**: a message classified by rule 4 (hidden-forward
markers on the replied-to message) still causes a chat-metadata lookup:
the lookup trace is `[chat.id]`, not `[]`, because `getChatInfo` is
invoked unconditionally before the case analysis (worker.js line 355). -/
theorem c2_hidden_forward_lookup_counterexample :
    (detectCrossChannelReply c2CexMsg (fun _ => none)).1.replyType = "hidden_forward" ∧
    (detectCrossChannelReply c2CexMsg (fun _ => none)).2 = [c2CexMsg.chat.id] :=
  ⟨by decide, by decide⟩

/-! ### C8: result invariant -/

/-- **C8**: every classification result satisfies
`isExternal = true → isCrossChannel = true`, and a result with
`replyType = "none"` has both flags false. -/
theorem c8_classification_invariant (msg : Message)
    (lookup : Int → Option ChatInfo) :
    ((detectCrossChannelReply msg lookup).1.isExternal = true →
      (detectCrossChannelReply msg lookup).1.isCrossChannel = true) ∧
    ((detectCrossChannelReply msg lookup).1.replyType = "none" →
      (detectCrossChannelReply msg lookup).1.isCrossChannel = false ∧
      (detectCrossChannelReply msg lookup).1.isExternal = false) := by
  have h := resultOK_detect msg lookup
  exact ⟨h.1, h.2⟩

def c8WitMsg : Message :=
  { message_id := 503
    chat := { id := -300111, type := "supergroup", title := none, username := none }
    external_reply := none
    reply_to_message := some
      { forward_from_chat := none
        sender_chat := none
        forward_sender_name := none
        forward_date := some 1111
        forward_signature := none } }

theorem c8_classification_invariant_witness :
    (detectCrossChannelReply c8WitMsg (fun _ => none)).1.isCrossChannel = true :=
  (c8_classification_invariant c8WitMsg (fun _ => none)).1 (by decide)

/-! ## API client (`makeApiRequest`, worker.js lines 485-549) -/

/-- Outcome of one HTTP attempt against the remote API.  `netErr` covers a
thrown network error and a non-ok HTTP status (both land in the `catch`
block), `timeout` the abort of an attempt exceeding `REQUEST_TIMEOUT`;
`reply ok code r` is a parsed JSON response envelope. -/
inductive ApiOutcome (α : Type) where
  | netErr
  | timeout
  | reply (ok : Bool) (error_code : Int) (result : α)

/-- `isRetryableError(errorCode)`: true for 429/502/503/504. -/
def isRetryableError (errorCode : Int) : Bool :=
  ([429, 502, 503, 504] : List Int).contains errorCode

/-- `makeApiRequest(method, params, env, retryCount)`.

The remote behaviour is abstracted by `outcomes`, giving the outcome of the
attempt with each retry count.  Returns the final result (`none` models the
JS `null`) together with the list of backoff delays (ms) slept before each
retry, in order.  The function never throws: every failure state resolves
to `none`. -/
def makeApiRequest {α : Type} (cfg : Config) (outcomes : Nat → ApiOutcome α)
    (retryCount : Nat) : Option α × List Nat :=
  match outcomes retryCount with
  | .reply true _ r => (some r, [])
  | .reply false code _ =>
    -- logical failure: retry only on retryable error codes
    if h : retryCount < cfg.MAX_RETRIES ∧ isRetryableError code = true then
      let rest := makeApiRequest cfg outcomes (retryCount + 1)
      (rest.1, 2 ^ retryCount * 1000 :: rest.2)
    else (none, [])
  | .netErr =>
    -- network error / non-ok HTTP status: retry unconditionally
    if h : retryCount < cfg.MAX_RETRIES then
      let rest := makeApiRequest cfg outcomes (retryCount + 1)
      (rest.1, 2 ^ retryCount * 1000 :: rest.2)
    else (none, [])
  | .timeout =>
    -- aborted request: same retry policy as a network error
    if h : retryCount < cfg.MAX_RETRIES then
      let rest := makeApiRequest cfg outcomes (retryCount + 1)
      (rest.1, 2 ^ retryCount * 1000 :: rest.2)
    else (none, [])
termination_by cfg.MAX_RETRIES - retryCount
decreasing_by
  · omega
  · omega
  · omega

/-- An attempt outcome on which `makeApiRequest` retries (when below the
retry ceiling). -/
def isRetryAttempt {α : Type} : ApiOutcome α → Bool
  | .netErr => true
  | .timeout => true
  | .reply true _ _ => false
  | .reply false code _ => isRetryableError code

/-! ## Chat metadata cache (`getChatInfo`, worker.js lines 557-589) -/

/-- A cache entry: `{data, timestamp}`. -/
structure CacheEntry where
  data : ChatInfo
  timestamp : Int
deriving Repr, DecidableEq

/-- The `chatInfoCache` map, as an insertion-ordered association list. -/
abbrev ChatCache := List (String × CacheEntry)

/-- `Map.get` / `Map.has` combined: the binding of `key`, if any. -/
def cacheFind : ChatCache → String → Option CacheEntry
  | [], _ => none
  | (k, e) :: rest, key => if k == key then some e else cacheFind rest key

/-- `Map.delete`: remove the binding of `key`. -/
def cacheDelete (cache : ChatCache) (key : String) : ChatCache :=
  cache.filter (fun p => !(p.1 == key))

/-- `Map.set`: update the binding in place if present, else append. -/
def cacheSet : ChatCache → String → CacheEntry → ChatCache
  | [], key, v => [(key, v)]
  | (k, e) :: rest, key, v =>
    if k == key then (key, v) :: rest else (k, e) :: cacheSet rest key v

/-- `getChatInfo(chatId, env)`.

`fetch` is the outcome of the (at most one) `makeApiRequest('getChat', ...)`
call this invocation would make; the third component of the result reports
whether that remote fetch was actually performed. -/
def getChatInfo (cfg : Config) (cache : ChatCache) (chatId : Int) (now : Int)
    (fetch : Option ChatInfo) : Option ChatInfo × ChatCache × Bool :=
  match cacheFind cache ("chat_" ++ toString chatId) with
  | some cached =>
    if now - cached.timestamp < cfg.CACHE_TTL then
      (some cached.data, cache, false)
    else
      fetchAndCache (cacheDelete cache ("chat_" ++ toString chatId))
        ("chat_" ++ toString chatId) now fetch
  | none => fetchAndCache cache ("chat_" ++ toString chatId) now fetch
where
  /-- The fetch-and-store tail of `getChatInfo`: on success cache
  `{data, timestamp: now}`, on failure return `null` without caching. -/
  fetchAndCache (cache : ChatCache) (key : String) (now : Int)
      (fetch : Option ChatInfo) : Option ChatInfo × ChatCache × Bool :=
    match fetch with
    | some chatInfo => (some chatInfo, cacheSet cache key ⟨chatInfo, now⟩, true)
    | none => (none, cache, true)

/-! ## Moderation action (worker.js lines 599-714) -/

/-- Outbound effects of the moderation path, in order. -/
inductive ModAction where
  | apiDeleteMessage (chat_id message_id : Int)
  | apiSendMessage (chat_id : Int) (text : String)
  | scheduleDeletion (chat_id message_id : Int) (delay : Int)
deriving Repr, DecidableEq

/-- The `sendMessage` result payload (only `message_id` is read). -/
structure SendMessageResult where
  message_id : Option Int
deriving Repr, DecidableEq

/-- `sendWarningMessage(chatId, env, ctx, isEdited)`: sends the fixed
warning text and, when the send result is truthy with a truthy
`message_id`, hands a deferred deletion of the warning (after
`WARNING_AUTO_DELETE_DELAY`) to `ctx.waitUntil`. -/
def sendWarningMessage (cfg : Config) (chatId : Int)
    (sendResult : Option SendMessageResult) : List ModAction :=
  ModAction.apiSendMessage chatId cfg.WARNING_MESSAGE_TEXT ::
    (match sendResult with
     | some result =>
       if jsTruthyInt result.message_id then
         [ModAction.scheduleDeletion chatId (result.message_id.getD 0)
            cfg.WARNING_AUTO_DELETE_DELAY]
       else []
     | none => [])

/-- `deleteCrossChannelReply(message, env, ctx, isEdited)`: request deletion
of the offending message, then — on success and on failure alike — send the
warning.  `deleteResult`/`sendResult` are the outcomes of the two API
calls. -/
def deleteCrossChannelReply (cfg : Config) (message : Message)
    (deleteResult : Option Unit) (sendResult : Option SendMessageResult) :
    List ModAction :=
  ModAction.apiDeleteMessage message.chat.id message.message_id ::
    (match deleteResult with
     | some _ => sendWarningMessage cfg message.chat.id sendResult
     | none =>
       -- deletion failed: still send the warning
       sendWarningMessage cfg message.chat.id sendResult)

/-! ### C5: API client retry contract -/

lemma delays_cons (rc n : Nat) :
    (List.range (n + 1)).map (fun i => 2 ^ (rc + i) * 1000) =
      2 ^ rc * 1000 :: (List.range n).map (fun i => 2 ^ (rc + 1 + i) * 1000) := by
  rw [List.range_succ_eq_map, List.map_cons, List.map_map]
  refine congrArg₂ List.cons (by simp) ?_
  apply List.map_congr_left
  intro i _
  show 2 ^ (rc + (i + 1)) * 1000 = 2 ^ (rc + 1 + i) * 1000
  have harg : rc + (i + 1) = rc + 1 + i := by omega
  rw [harg]

lemma makeApiRequest_result_aux {α : Type} (cfg : Config)
    (outcomes : Nat → ApiOutcome α) :
    ∀ d rc, cfg.MAX_RETRIES ≤ rc + d →
      (makeApiRequest cfg outcomes rc).1 = none ∨
      ∃ k code r, outcomes k = .reply true code r ∧
        (makeApiRequest cfg outcomes rc).1 = some r := by
  intro d
  induction d with
  | zero =>
    intro rc hd
    unfold makeApiRequest
    split
    · next code r heq => exact Or.inr ⟨rc, code, r, heq, rfl⟩
    · rw [dif_neg (fun hh => absurd hh.1 (by omega))]
      exact Or.inl rfl
    · rw [dif_neg (by omega)]
      exact Or.inl rfl
    · rw [dif_neg (by omega)]
      exact Or.inl rfl
  | succ d ih =>
    intro rc hd
    unfold makeApiRequest
    split
    · next code r heq => exact Or.inr ⟨rc, code, r, heq, rfl⟩
    · split
      · rcases ih (rc + 1) (by omega) with h1 | ⟨k, code, r, hk, hr⟩
        · exact Or.inl h1
        · exact Or.inr ⟨k, code, r, hk, hr⟩
      · exact Or.inl rfl
    · split
      · rcases ih (rc + 1) (by omega) with h1 | ⟨k, code, r, hk, hr⟩
        · exact Or.inl h1
        · exact Or.inr ⟨k, code, r, hk, hr⟩
      · exact Or.inl rfl
    · split
      · rcases ih (rc + 1) (by omega) with h1 | ⟨k, code, r, hk, hr⟩
        · exact Or.inl h1
        · exact Or.inr ⟨k, code, r, hk, hr⟩
      · exact Or.inl rfl

lemma makeApiRequest_delays_aux {α : Type} (cfg : Config)
    (outcomes : Nat → ApiOutcome α) :
    ∀ d rc, cfg.MAX_RETRIES ≤ rc + d →
      ∃ n, (n = 0 ∨ rc + n ≤ cfg.MAX_RETRIES) ∧
        (makeApiRequest cfg outcomes rc).2 =
          (List.range n).map (fun i => 2 ^ (rc + i) * 1000) := by
  intro d
  induction d with
  | zero =>
    intro rc hd
    refine ⟨0, Or.inl rfl, ?_⟩
    unfold makeApiRequest
    split
    · rfl
    · rw [dif_neg (fun hh => absurd hh.1 (by omega))]
      rfl
    · rw [dif_neg (by omega)]
      rfl
    · rw [dif_neg (by omega)]
      rfl
  | succ d ih =>
    intro rc hd
    unfold makeApiRequest
    split
    · exact ⟨0, Or.inl rfl, rfl⟩
    · split
      · next h =>
        obtain ⟨n, hn, heq⟩ := ih (rc + 1) (by omega)
        refine ⟨n + 1, Or.inr (by omega), ?_⟩
        rw [delays_cons]
        simp only [heq]
      · exact ⟨0, Or.inl rfl, rfl⟩
    · split
      · next h =>
        obtain ⟨n, hn, heq⟩ := ih (rc + 1) (by omega)
        refine ⟨n + 1, Or.inr (by omega), ?_⟩
        rw [delays_cons]
        simp only [heq]
      · exact ⟨0, Or.inl rfl, rfl⟩
    · split
      · next h =>
        obtain ⟨n, hn, heq⟩ := ih (rc + 1) (by omega)
        refine ⟨n + 1, Or.inr (by omega), ?_⟩
        rw [delays_cons]
        simp only [heq]
      · exact ⟨0, Or.inl rfl, rfl⟩

lemma makeApiRequest_exhaust_aux {α : Type} (cfg : Config)
    (outcomes : Nat → ApiOutcome α) :
    ∀ d rc, cfg.MAX_RETRIES ≤ rc + d → rc ≤ cfg.MAX_RETRIES →
      (∀ i, rc ≤ i → i ≤ cfg.MAX_RETRIES → isRetryAttempt (outcomes i) = true) →
      makeApiRequest cfg outcomes rc =
        (none, (List.range (cfg.MAX_RETRIES - rc)).map
          (fun i => 2 ^ (rc + i) * 1000)) := by
  intro d
  induction d with
  | zero =>
    intro rc hd hrc hall
    have heq : rc = cfg.MAX_RETRIES := by omega
    have hmax : cfg.MAX_RETRIES - rc = 0 := by omega
    rw [hmax]
    unfold makeApiRequest
    split
    · next code r h =>
      have := hall rc le_rfl hrc
      rw [h] at this
      exact absurd this (by simp [isRetryAttempt])
    · rw [dif_neg (fun hh => absurd hh.1 (by omega))]
      rfl
    · rw [dif_neg (by omega)]
      rfl
    · rw [dif_neg (by omega)]
      rfl
  | succ d ih =>
    intro rc hd hrc hall
    rcases Nat.lt_or_ge rc cfg.MAX_RETRIES with hlt | hge
    · have hsub : cfg.MAX_RETRIES - rc = (cfg.MAX_RETRIES - (rc + 1)) + 1 := by omega
      unfold makeApiRequest
      split
      · next code r h =>
        have := hall rc le_rfl hrc
        rw [h] at this
        exact absurd this (by simp [isRetryAttempt])
      · next code r h =>
        have hretry : isRetryableError code = true := by
          have := hall rc le_rfl hrc
          rw [h] at this
          simpa [isRetryAttempt] using this
        rw [dif_pos ⟨hlt, hretry⟩]
        rw [ih (rc + 1) (by omega) (by omega)
          (fun i hi hi' => hall i (by omega) hi')]
        rw [hsub, delays_cons]
      · rw [dif_pos hlt]
        rw [ih (rc + 1) (by omega) (by omega)
          (fun i hi hi' => hall i (by omega) hi')]
        rw [hsub, delays_cons]
      · rw [dif_pos hlt]
        rw [ih (rc + 1) (by omega) (by omega)
          (fun i hi hi' => hall i (by omega) hi')]
        rw [hsub, delays_cons]
    · have hmax : cfg.MAX_RETRIES - rc = 0 := by omega
      rw [hmax]
      unfold makeApiRequest
      split
      · next code r h =>
        have := hall rc le_rfl hrc
        rw [h] at this
        exact absurd this (by simp [isRetryAttempt])
      · rw [dif_neg (fun hh => absurd hh.1 (by omega))]
        rfl
      · rw [dif_neg (by omega)]
        rfl
      · rw [dif_neg (by omega)]
        rfl

/-- **C5**: the API client never raises: it returns the result payload of a
logically successful response or `none`; backoff delays double per attempt
(starting at the fixed base 1000 ms) and number at most `MAX_RETRIES`; a
non-retryable logical error on the first attempt resolves to `none`
immediately with no retry and no delay; and when every attempt up to the
ceiling is a retryable failure (retryable logical error, network failure or
timeout), the call resolves to `none` after exactly `MAX_RETRIES` doubled
delays. -/
theorem c5_api_client_contract {α : Type} (cfg : Config)
    (outcomes : Nat → ApiOutcome α) :
    ((makeApiRequest cfg outcomes 0).1 = none ∨
      ∃ k code r, outcomes k = .reply true code r ∧
        (makeApiRequest cfg outcomes 0).1 = some r) ∧
    (∃ n, n ≤ cfg.MAX_RETRIES ∧
      (makeApiRequest cfg outcomes 0).2 =
        (List.range n).map (fun i => 2 ^ i * 1000)) ∧
    (∀ code r, outcomes 0 = .reply false code r → isRetryableError code = false →
      makeApiRequest cfg outcomes 0 = (none, [])) ∧
    ((∀ i, i ≤ cfg.MAX_RETRIES → isRetryAttempt (outcomes i) = true) →
      makeApiRequest cfg outcomes 0 =
        (none, (List.range cfg.MAX_RETRIES).map (fun i => 2 ^ i * 1000))) := by
  refine ⟨?_, ?_, ?_, ?_⟩
  · exact makeApiRequest_result_aux cfg outcomes cfg.MAX_RETRIES 0 (by omega)
  · obtain ⟨n, hn, heq⟩ :=
      makeApiRequest_delays_aux cfg outcomes cfg.MAX_RETRIES 0 (by omega)
    refine ⟨n, by omega, ?_⟩
    simpa using heq
  · intro code r heq hnr
    unfold makeApiRequest
    simp only [heq]
    rw [dif_neg (fun hh => by rw [hnr] at hh; exact Bool.false_ne_true hh.2)]
  · intro hall
    have := makeApiRequest_exhaust_aux cfg outcomes cfg.MAX_RETRIES 0 (by omega)
      (by omega) (fun i _ hi => hall i hi)
    simpa using this

def c5WitOutcomes : Nat → ApiOutcome Int := fun _ => ApiOutcome.reply false 400 0

theorem c5_api_client_contract_witness :
    makeApiRequest defaultConfig c5WitOutcomes 0 = (none, []) :=
  (c5_api_client_contract defaultConfig c5WitOutcomes).2.2.1 400 0 rfl rfl

/-! ### C4: cache TTL contract -/

lemma cacheFind_cacheSet_self (cache : ChatCache) (key : String) (v : CacheEntry) :
    cacheFind (cacheSet cache key v) key = some v := by
  induction cache with
  | nil => simp [cacheSet, cacheFind]
  | cons p rest ih =>
    obtain ⟨k, e⟩ := p
    by_cases h : k == key
    · simp [cacheSet, cacheFind, h]
    · simp [cacheSet, cacheFind, h, ih]

lemma cacheFind_cacheDelete_self (cache : ChatCache) (key : String) :
    cacheFind (cacheDelete cache key) key = none := by
  induction cache with
  | nil => simp [cacheDelete, cacheFind]
  | cons p rest ih =>
    obtain ⟨k, e⟩ := p
    by_cases h : k == key
    · simpa [cacheDelete, cacheFind, h] using ih
    · simpa [cacheDelete, cacheFind, h] using ih

lemma cacheFind_cacheDelete_ne (cache : ChatCache) (key k : String)
    (h : k ≠ key) :
    cacheFind (cacheDelete cache key) k = cacheFind cache k := by
  induction cache with
  | nil => simp [cacheDelete, cacheFind]
  | cons p rest ih =>
    obtain ⟨k', e⟩ := p
    by_cases h1 : k' == key
    · have h2 : (k' == k) = false := by
        have : k' = key := by simpa using h1
        subst this
        simpa using fun hh => h hh.symm
      simpa [cacheDelete, cacheFind, h1, h2] using ih
    · by_cases h2 : k' == k
      · simp [cacheDelete, cacheFind, h1, h2]
      · simpa [cacheDelete, cacheFind, h1, h2] using ih

lemma getChatInfo_hit (cfg : Config) (cache : ChatCache) (chatId : Int)
    (now : Int) (fetch : Option ChatInfo) (e : CacheEntry)
    (hfind : cacheFind cache ("chat_" ++ toString chatId) = some e)
    (hfresh : now - e.timestamp < cfg.CACHE_TTL) :
    getChatInfo cfg cache chatId now fetch = (some e.data, cache, false) := by
  unfold getChatInfo
  simp only [hfind, if_pos hfresh]

lemma getChatInfo_expired (cfg : Config) (cache : ChatCache) (chatId : Int)
    (now : Int) (fetch : Option ChatInfo) (e : CacheEntry)
    (hfind : cacheFind cache ("chat_" ++ toString chatId) = some e)
    (hexp : ¬ now - e.timestamp < cfg.CACHE_TTL) :
    getChatInfo cfg cache chatId now fetch =
      getChatInfo.fetchAndCache
        (cacheDelete cache ("chat_" ++ toString chatId))
        ("chat_" ++ toString chatId) now fetch := by
  unfold getChatInfo
  simp only [hfind, if_neg hexp]

lemma getChatInfo_miss (cfg : Config) (cache : ChatCache) (chatId : Int)
    (now : Int) (fetch : Option ChatInfo)
    (hfind : cacheFind cache ("chat_" ++ toString chatId) = none) :
    getChatInfo cfg cache chatId now fetch =
      getChatInfo.fetchAndCache cache ("chat_" ++ toString chatId) now fetch := by
  unfold getChatInfo
  simp only [hfind]

lemma fetchAndCache_some (cache : ChatCache) (key : String) (now : Int)
    (info : ChatInfo) :
    getChatInfo.fetchAndCache cache key now (some info) =
      (some info, cacheSet cache key ⟨info, now⟩, true) := rfl

lemma fetchAndCache_none (cache : ChatCache) (key : String) (now : Int) :
    getChatInfo.fetchAndCache cache key now none = (none, cache, true) := rfl

/-- After a call whose fetch succeeded, the cache binds the key to the
fetched data stamped with the call time, unless the call was a fresh hit
(in which case the cache is unchanged and no fetch occurred). -/
lemma getChatInfo_success_state (cfg : Config) (cache : ChatCache)
    (chatId : Int) (t0 : Int) (info : ChatInfo) :
    ((getChatInfo cfg cache chatId t0 (some info)).2.2 = false ∧
      (getChatInfo cfg cache chatId t0 (some info)).2.1 = cache) ∨
    cacheFind (getChatInfo cfg cache chatId t0 (some info)).2.1
        ("chat_" ++ toString chatId) = some ⟨info, t0⟩ := by
  cases hfind : cacheFind cache ("chat_" ++ toString chatId) with
  | some e =>
    by_cases hfresh : t0 - e.timestamp < cfg.CACHE_TTL
    · rw [getChatInfo_hit cfg cache chatId t0 (some info) e hfind hfresh]
      exact Or.inl ⟨rfl, rfl⟩
    · rw [getChatInfo_expired cfg cache chatId t0 (some info) e hfind hfresh,
        fetchAndCache_some]
      exact Or.inr (cacheFind_cacheSet_self ..)
  | none =>
    rw [getChatInfo_miss cfg cache chatId t0 (some info) hfind, fetchAndCache_some]
    exact Or.inr (cacheFind_cacheSet_self ..)

/-- **C4**: (i) two calls for the same chat within the TTL perform at most
one remote fetch when the first call's fetch succeeds; (ii) a call made
when the cached entry is at least TTL old performs the (single) re-fetch;
(iii) a call that fetches and fails returns `none` and leaves no entry for
the chat in the cache, with all other keys untouched. -/
theorem c4_cache_ttl_contract (cfg : Config) (cache : ChatCache)
    (chatId : Int) (t0 t1 : Int) (info : ChatInfo) (fetch2 : Option ChatInfo) :
    (t1 - t0 < cfg.CACHE_TTL →
      (getChatInfo cfg cache chatId t0 (some info)).2.2.toNat +
        (getChatInfo cfg (getChatInfo cfg cache chatId t0 (some info)).2.1
          chatId t1 fetch2).2.2.toNat ≤ 1) ∧
    (∀ e, cacheFind cache ("chat_" ++ toString chatId) = some e →
      cfg.CACHE_TTL ≤ t1 - e.timestamp →
      (getChatInfo cfg cache chatId t1 fetch2).2.2 = true) ∧
    ((getChatInfo cfg cache chatId t1 none).2.2 = true →
      (getChatInfo cfg cache chatId t1 none).1 = none ∧
      cacheFind (getChatInfo cfg cache chatId t1 none).2.1
          ("chat_" ++ toString chatId) = none ∧
      ∀ k, k ≠ "chat_" ++ toString chatId →
        cacheFind (getChatInfo cfg cache chatId t1 none).2.1 k =
          cacheFind cache k) := by
  refine ⟨?_, ?_, ?_⟩
  · intro hin
    rcases getChatInfo_success_state cfg cache chatId t0 info with ⟨hd, _⟩ | hbind
    · rw [hd]
      simpa using Bool.toNat_le
        (getChatInfo cfg (getChatInfo cfg cache chatId t0 (some info)).2.1
          chatId t1 fetch2).2.2
    · have hfresh : t1 - (⟨info, t0⟩ : CacheEntry).timestamp < cfg.CACHE_TTL := hin
      rw [getChatInfo_hit cfg _ chatId t1 fetch2 ⟨info, t0⟩ hbind hfresh]
      simpa using Bool.toNat_le (getChatInfo cfg cache chatId t0 (some info)).2.2
  · intro e hfind hexp
    rw [getChatInfo_expired cfg cache chatId t1 fetch2 e hfind (by omega)]
    cases fetch2 with
    | some i => rw [fetchAndCache_some]
    | none => rw [fetchAndCache_none]
  · intro hfetched
    cases hfind : cacheFind cache ("chat_" ++ toString chatId) with
    | some e =>
      by_cases hfresh : t1 - e.timestamp < cfg.CACHE_TTL
      · rw [getChatInfo_hit cfg cache chatId t1 none e hfind hfresh] at hfetched
        exact absurd hfetched (by simp)
      · rw [getChatInfo_expired cfg cache chatId t1 none e hfind hfresh,
          fetchAndCache_none]
        exact ⟨rfl, cacheFind_cacheDelete_self .., fun k hk =>
          cacheFind_cacheDelete_ne cache ("chat_" ++ toString chatId) k hk⟩
    | none =>
      rw [getChatInfo_miss cfg cache chatId t1 none hfind, fetchAndCache_none]
      exact ⟨rfl, hfind, fun k _ => rfl⟩

theorem c4_cache_ttl_contract_witness :
    (getChatInfo defaultConfig [] (-200555) 0
        (some { linked_chat_id := some (-100123) })).2.2.toNat +
      (getChatInfo defaultConfig
        (getChatInfo defaultConfig [] (-200555) 0
          (some { linked_chat_id := some (-100123) })).2.1
        (-200555) 1000
        (some { linked_chat_id := some (-100123) })).2.2.toNat ≤ 1 :=
  (c4_cache_ttl_contract defaultConfig [] (-200555) 0 1000
    { linked_chat_id := some (-100123) }
    (some { linked_chat_id := some (-100123) })).1 (by decide)

/-! ### C7: moderation sequence -/

/-- **C7** (amended): the moderation path first requests deletion of the
offending message, then sends the fixed warning text to the same chat
regardless of the deletion outcome, and a deferred deletion of the warning
after `WARNING_AUTO_DELETE_DELAY` is scheduled exactly when the send
succeeds and yields a truthy (non-zero) message identifier. -/
theorem c7_moderation_order_and_scheduling (cfg : Config) (message : Message)
    (deleteResult : Option Unit) (sendResult : Option SendMessageResult) :
    (deleteCrossChannelReply cfg message deleteResult sendResult).take 2 =
      [ModAction.apiDeleteMessage message.chat.id message.message_id,
       ModAction.apiSendMessage message.chat.id cfg.WARNING_MESSAGE_TEXT] ∧
    ∀ m : Int,
      ModAction.scheduleDeletion message.chat.id m cfg.WARNING_AUTO_DELETE_DELAY ∈
          deleteCrossChannelReply cfg message deleteResult sendResult ↔
        sendResult = some { message_id := some m } ∧ m ≠ 0 := by
  have hsend : deleteCrossChannelReply cfg message deleteResult sendResult =
      ModAction.apiDeleteMessage message.chat.id message.message_id ::
        sendWarningMessage cfg message.chat.id sendResult := by
    cases deleteResult <;> rfl
  rw [hsend]
  constructor
  · rfl
  · intro m
    cases sendResult with
    | none => simp [sendWarningMessage]
    | some r =>
      obtain ⟨mid⟩ := r
      cases mid with
      | none => simp [sendWarningMessage, jsTruthyInt]
      | some l =>
        by_cases hl : l = 0
        · subst hl
          simp only [sendWarningMessage, jsTruthyInt]
          simp
          exact fun h => h.symm
        · simp only [sendWarningMessage, jsTruthyInt, List.mem_cons]
          rw [if_pos (by simpa using hl)]
          simp only [Option.getD_some, List.mem_singleton]
          constructor
          · rintro (h | h | h)
            · cases h
            · cases h
            · cases h
              exact ⟨rfl, hl⟩
          · rintro ⟨hr, _⟩
            cases hr
            exact Or.inr (Or.inr rfl)

def c7CexMsg : Message :=
  { message_id := 600
    chat := { id := -400222, type := "supergroup", title := none, username := none }
    external_reply := none
    reply_to_message := none }

/-- **C7 counterexample**: the send succeeds and yields the message
identifier `0`, yet no deferred deletion is scheduled, because
`sendWarningMessage` tests the JS truthiness of `result.message_id` and
`0` is falsy. -/
theorem c7_zero_message_id_counterexample :
    (some { message_id := some 0 } : Option SendMessageResult) ≠ none ∧
    deleteCrossChannelReply defaultConfig c7CexMsg (some ())
        (some { message_id := some 0 }) =
      [ModAction.apiDeleteMessage (-400222) 600,
       ModAction.apiSendMessage (-400222) defaultConfig.WARNING_MESSAGE_TEXT] :=
  ⟨Option.some_ne_none _, rfl⟩

def c7WitMsg : Message :=
  { message_id := 601
    chat := { id := -400333, type := "supergroup", title := none, username := none }
    external_reply := none
    reply_to_message := none }

theorem c7_moderation_order_witness :
    (deleteCrossChannelReply defaultConfig c7WitMsg none
        (some { message_id := some 777 })).take 2 =
      [ModAction.apiDeleteMessage c7WitMsg.chat.id c7WitMsg.message_id,
       ModAction.apiSendMessage c7WitMsg.chat.id defaultConfig.WARNING_MESSAGE_TEXT] :=
  (c7_moderation_order_and_scheduling defaultConfig c7WitMsg none
    (some { message_id := some 777 })).1

/-! ## Rate limiter (`checkRateLimit`, worker.js lines 119-147) -/

/-- The `rateLimitTracker` map: client address to request timestamps,
insertion-ordered. -/
abbrev Tracker := List (String × List Int)

/-- The cleanup loop of `checkRateLimit`: filter each entry down to
timestamps inside the trailing window, deleting entries that become
empty. -/
def cleanupTracker (windowStart : Int) : Tracker → Tracker
  | [] => []
  | (ip, timestamps) :: rest =>
    if (timestamps.filter (fun ts => windowStart < ts)).isEmpty then
      cleanupTracker windowStart rest
    else
      (ip, timestamps.filter (fun ts => windowStart < ts)) ::
        cleanupTracker windowStart rest

/-- `rateLimitTracker.get(clientIP) || []`. -/
def trackerGet : Tracker → String → List Int
  | [], _ => []
  | (k, v) :: rest, ip => if k == ip then v else trackerGet rest ip

/-- `rateLimitTracker.set`: update in place if present, else append. -/
def trackerSet : Tracker → String → List Int → Tracker
  | [], ip, v => [(ip, v)]
  | (k, e) :: rest, ip, v =>
    if k == ip then (ip, v) :: rest else (k, e) :: trackerSet rest ip v

/-- `checkRateLimit(request)`: returns `(allowed, count, new tracker)`. -/
def checkRateLimit (cfg : Config) (tracker : Tracker) (ip : String)
    (now : Int) : Bool × Nat × Tracker :=
  -- windowStart = now - RATE_LIMIT_WINDOW
  if cfg.MAX_REQUESTS_PER_WINDOW ≤
      ((trackerGet (cleanupTracker (now - cfg.RATE_LIMIT_WINDOW) tracker) ip).filter
        (fun ts => now - cfg.RATE_LIMIT_WINDOW < ts)).length then
    (false,
      ((trackerGet (cleanupTracker (now - cfg.RATE_LIMIT_WINDOW) tracker) ip).filter
        (fun ts => now - cfg.RATE_LIMIT_WINDOW < ts)).length,
      cleanupTracker (now - cfg.RATE_LIMIT_WINDOW) tracker)
  else
    (true,
      ((trackerGet (cleanupTracker (now - cfg.RATE_LIMIT_WINDOW) tracker) ip).filter
        (fun ts => now - cfg.RATE_LIMIT_WINDOW < ts)).length + 1,
      trackerSet (cleanupTracker (now - cfg.RATE_LIMIT_WINDOW) tracker) ip
        (((trackerGet (cleanupTracker (now - cfg.RATE_LIMIT_WINDOW) tracker) ip).filter
          (fun ts => now - cfg.RATE_LIMIT_WINDOW < ts)) ++ [now]))

/-- Run a sequence of requests from one address through the rate limiter,
collecting the admission verdicts and the final tracker state. -/
def runRateLimit (cfg : Config) (ip : String) :
    Tracker → List Int → List Bool × Tracker
  | tracker, [] => ([], tracker)
  | tracker, t :: ts =>
    ((checkRateLimit cfg tracker ip t).1 ::
        (runRateLimit cfg ip (checkRateLimit cfg tracker ip t).2.2 ts).1,
      (runRateLimit cfg ip (checkRateLimit cfg tracker ip t).2.2 ts).2)

/-! ## Router and webhook handling (worker.js lines 62-219, 722-770) -/

/-- An HTTP response: status, body, and the explicitly-set headers. -/
structure Response where
  status : Nat
  body : String
  headers : List (String × String)
deriving Repr, DecidableEq

/-- Observable effects of processing a request. -/
inductive Effect where
  | processedMessage (m : Message) (isEdited : Bool)
  | apiCall (method : String)
deriving Repr, DecidableEq

/-- A Telegram `Update` object as validated by `handleWebhook`. -/
structure UpdateObj where
  update_id : Option Int
  message : Option Message
  edited_message : Option Message

/-- The result of `await request.json()` on the webhook body.  `notJson`:
parsing threw; `jnull`: JSON `null` (falsy, though `typeof null` is
`'object'`); `nonObject`: a number/string/boolean; `update`: an object
(arrays fold into objects lacking the update fields). -/
inductive WebhookBody where
  | notJson
  | jnull
  | nonObject
  | update (u : UpdateObj)

/-- The body of `handleMessage`, abstracted: given a message it either
produces effects or raises (models any exception thrown while classifying
or moderating). -/
def MessageHandler : Type := Message → Bool → Except String (List Effect)

/-- `handleMessage(message, env, ctx, isEdited)`: the whole body is inside
`try { ... } catch { /* continue */ }`, so a raising handler contributes no
effects and no exception escapes. -/
def handleMessage (handler : MessageHandler) (m : Message)
    (isEdited : Bool) : List Effect :=
  Effect.processedMessage m isEdited ::
    (match handler m isEdited with
     | .ok effs => effs
     | .error _ => [])

/-- `processUpdate(update, env, ctx)`: runs `message` then
`edited_message` through `handleMessage`; its own try/catch swallows any
error so the webhook response is unaffected. -/
def processUpdate (u : UpdateObj) (handler : MessageHandler) : List Effect :=
  (match u.message with
   | some m => handleMessage handler m false
   | none => []) ++
  (match u.edited_message with
   | some m => handleMessage handler m true
   | none => [])

/-- `handleWebhook(request, env, ctx)`: validates Content-Type, JSON
parsing and update shape (`!update || typeof update !== 'object' ||
!update.update_id`), then processes the update and answers 200 "OK". -/
def handleWebhook (contentType : Option String) (body : WebhookBody)
    (handler : MessageHandler) : Response × List Effect :=
  if !(match contentType with
       | none => false
       | some ct => strIncludes ct "application/json") then
    (⟨400, "Invalid Content-Type", []⟩, [])
  else
    match body with
    | .notJson => (⟨400, "Invalid JSON", []⟩, [])
    | .jnull => (⟨400, "Invalid update format", []⟩, [])
    | .nonObject => (⟨400, "Invalid update format", []⟩, [])
    | .update u =>
      if jsTruthyInt u.update_id then
        (⟨200, "OK", []⟩, processUpdate u handler)
      else
        (⟨400, "Invalid update format", []⟩, [])

/-- The health-probe body: JSON with status, timestamp and version; the
dynamic timestamp is abstracted by the call time. -/
def healthBody (now : Int) : String :=
  "status=healthy;timestamp=" ++ toString now ++ ";version=2.0.0"

/-- `setupWebhook(request, env)`: one `setWebhook` API call; 200 JSON on a
non-null result, 500 JSON otherwise (dynamic fields abstracted). -/
def setupWebhook (setupResult : Option Unit) : Response × List Effect :=
  match setupResult with
  | some _ => (⟨200, "success=true", [("Content-Type", "application/json")]⟩,
      [Effect.apiCall "setWebhook"])
  | none => (⟨500, "success=false", [("Content-Type", "application/json")]⟩,
      [Effect.apiCall "setWebhook"])

/-- An inbound HTTP request, restricted to the fields the router reads. -/
structure Request where
  method : String
  pathname : String
  contentType : Option String
  body : WebhookBody
  ip : String

/-- `handleRequest(request, env, ctx)`: rate limit, then route to
health / webhook / setup, else 404.  Returns the response, the updated
rate-limit tracker, and the effect trace (remote API calls and processed
messages). -/
def handleRequest (cfg : Config) (tracker : Tracker) (req : Request)
    (now : Int) (handler : MessageHandler) (setupResult : Option Unit) :
    Response × Tracker × List Effect :=
  if !(checkRateLimit cfg tracker req.ip now).1 then
    (⟨429, "Rate limit exceeded", [("Retry-After", "60")]⟩,
      (checkRateLimit cfg tracker req.ip now).2.2, [])
  else if req.pathname == "/health" && req.method == "GET" then
    (⟨200, healthBody now, [("Content-Type", "application/json")]⟩,
      (checkRateLimit cfg tracker req.ip now).2.2, [])
  else if req.pathname == "/webhook" && req.method == "POST" then
    ((handleWebhook req.contentType req.body handler).1,
      (checkRateLimit cfg tracker req.ip now).2.2,
      (handleWebhook req.contentType req.body handler).2)
  else if req.pathname == "/setup" && req.method == "GET" then
    ((setupWebhook setupResult).1,
      (checkRateLimit cfg tracker req.ip now).2.2,
      (setupWebhook setupResult).2)
  else
    (⟨404, "Not Found", []⟩, (checkRateLimit cfg tracker req.ip now).2.2, [])

/-! ### C6, C10: webhook validation and status codes -/

lemma strIncludes_appjson :
    strIncludes "application/json" "application/json" = true := by decide

/-- A message handler that succeeds with no extra effects. -/
def trivialHandler : MessageHandler := fun _ _ => .ok []

/-- **C6**: with a JSON content type, an unparsable body or an update of
the wrong shape (null, non-object, or falsy `update_id`) yields 400 with no
message processing; an update with a truthy `update_id` yields 200 "OK"
for every handler — including handlers that raise, so no per-message
processing exception propagates to a non-200 response.  A missing or
non-JSON content type yields 400 with no processing. -/
theorem c6_webhook_status_contract (s : String) (body : WebhookBody)
    (handler : MessageHandler)
    (hs : strIncludes s "application/json" = true) :
    (body = .notJson →
      handleWebhook (some s) body handler = (⟨400, "Invalid JSON", []⟩, [])) ∧
    (body = .jnull ∨ body = .nonObject →
      handleWebhook (some s) body handler =
        (⟨400, "Invalid update format", []⟩, [])) ∧
    (∀ u, body = .update u → jsTruthyInt u.update_id = false →
      handleWebhook (some s) body handler =
        (⟨400, "Invalid update format", []⟩, [])) ∧
    (∀ u, body = .update u → jsTruthyInt u.update_id = true →
      (handleWebhook (some s) body handler).1 = ⟨200, "OK", []⟩) ∧
    (∀ ct : Option String,
      (ct = none ∨ ∃ s2, ct = some s2 ∧ strIncludes s2 "application/json" = false) →
      handleWebhook ct body handler = (⟨400, "Invalid Content-Type", []⟩, [])) := by
  refine ⟨?_, ?_, ?_, ?_, ?_⟩
  · rintro rfl
    simp [handleWebhook, hs]
  · rintro (rfl | rfl) <;> simp [handleWebhook, hs]
  · rintro u rfl hfalse
    simp [handleWebhook, hs, hfalse]
  · rintro u rfl htrue
    simp [handleWebhook, hs, htrue]
  · rintro ct (rfl | ⟨s2, rfl, hs2⟩)
    · simp [handleWebhook]
    · simp [handleWebhook, hs2]

theorem c6_webhook_status_contract_witness :
    handleWebhook (some "application/json") WebhookBody.notJson trivialHandler =
      (⟨400, "Invalid JSON", []⟩, []) :=
  (c6_webhook_status_contract "application/json" WebhookBody.notJson
    trivialHandler strIncludes_appjson).1 rfl

/-- **C10**: an update whose `update_id` is present but falsy (the integer
`0`) is rejected with 400 and never processed: the validation
`!update.update_id` tests truthiness, not presence. -/
theorem c10_falsy_update_id_rejected (m e : Option Message)
    (handler : MessageHandler) :
    handleWebhook (some "application/json")
        (WebhookBody.update
          { update_id := some 0, message := m, edited_message := e }) handler =
      (⟨400, "Invalid update format", []⟩, []) := by
  simp [handleWebhook, strIncludes_appjson, jsTruthyInt]

/-! ### C9: unknown routes -/

/-- **C9**: a request that passes rate limiting and matches none of
`GET /health`, `POST /webhook`, `GET /setup` is answered 404 "Not Found"
with an empty effect trace (no remote API calls, no message
processing). -/
theorem c9_unknown_route_404 (cfg : Config) (tracker : Tracker)
    (req : Request) (now : Int) (handler : MessageHandler)
    (setupResult : Option Unit)
    (hallowed : (checkRateLimit cfg tracker req.ip now).1 = true)
    (hh : ¬(req.pathname = "/health" ∧ req.method = "GET"))
    (hw : ¬(req.pathname = "/webhook" ∧ req.method = "POST"))
    (hst : ¬(req.pathname = "/setup" ∧ req.method = "GET")) :
    (handleRequest cfg tracker req now handler setupResult).1 =
      ⟨404, "Not Found", []⟩ ∧
    (handleRequest cfg tracker req now handler setupResult).2.2 = [] := by
  have h1 : (req.pathname == "/health" && req.method == "GET") = false := by
    cases hp : req.pathname == "/health" <;>
      cases hm : req.method == "GET" <;> simp_all
  have h2 : (req.pathname == "/webhook" && req.method == "POST") = false := by
    cases hp : req.pathname == "/webhook" <;>
      cases hm : req.method == "POST" <;> simp_all
  have h3 : (req.pathname == "/setup" && req.method == "GET") = false := by
    cases hp : req.pathname == "/setup" <;>
      cases hm : req.method == "GET" <;> simp_all
  unfold handleRequest
  simp [hallowed, h1, h2, h3]

def c9WitReq : Request :=
  { method := "GET"
    pathname := "/nope"
    contentType := none
    body := WebhookBody.notJson
    ip := "1.2.3.4" }

theorem c9_unknown_route_404_witness :
    (handleRequest defaultConfig [] c9WitReq 0 trivialHandler none).1 =
      ⟨404, "Not Found", []⟩ ∧
    (handleRequest defaultConfig [] c9WitReq 0 trivialHandler none).2.2 = [] :=
  c9_unknown_route_404 defaultConfig [] c9WitReq 0 trivialHandler none
    (by decide) (by decide) (by decide) (by decide)

/-! ### C3: rate limiter -/

/-- The tracker state holding only the requests of one address. -/
def trackerOf (ip : String) (l : List Int) : Tracker :=
  if l.isEmpty then [] else [(ip, l)]

lemma length_filter_lt_of_mem_not {p : Int → Bool} {l : List Int} {x : Int}
    (hx : x ∈ l) (hp : p x = false) : (l.filter p).length < l.length := by
  induction l with
  | nil => cases hx
  | cons a l ih =>
    rcases List.mem_cons.mp hx with rfl | hx'
    · have hle := List.length_filter_le p l
      rw [List.filter_cons_of_neg (by simp [hp])]
      simp only [List.length_cons]
      omega
    · cases hpa : p a with
      | false =>
        have hle := List.length_filter_le p l
        rw [List.filter_cons_of_neg (by simp [hpa])]
        simp only [List.length_cons]
        omega
      | true =>
        have := ih hx'
        rw [List.filter_cons_of_pos hpa]
        simp only [List.length_cons]
        omega

lemma cleanupTracker_trackerOf (ws : Int) (ip : String) (l : List Int)
    (hkeep : ∀ a ∈ l, ws < a) :
    cleanupTracker ws (trackerOf ip l) = trackerOf ip l := by
  have hfilter : l.filter (fun ts => ws < ts) = l :=
    List.filter_eq_self.mpr (fun a ha => by
      simpa using hkeep a ha)
  cases l with
  | nil => rfl
  | cons a l =>
    simp only [trackerOf, List.isEmpty_cons, if_neg Bool.false_ne_true,
      cleanupTracker, hfilter]

lemma trackerGet_trackerOf (ip : String) (l : List Int) :
    trackerGet (trackerOf ip l) ip = l := by
  cases l with
  | nil => rfl
  | cons a l => simp [trackerOf, trackerGet]

lemma trackerSet_trackerOf (ip : String) (l v : List Int) :
    trackerSet (trackerOf ip l) ip v = [(ip, v)] := by
  cases l with
  | nil => rfl
  | cons a l => simp [trackerOf, trackerSet]

lemma checkRateLimit_single (cfg : Config) (ip : String) (l : List Int)
    (now : Int) (hkeep : ∀ a ∈ l, now - cfg.RATE_LIMIT_WINDOW < a) :
    checkRateLimit cfg (trackerOf ip l) ip now =
      if cfg.MAX_REQUESTS_PER_WINDOW ≤ l.length then
        (false, l.length, trackerOf ip l)
      else
        (true, l.length + 1, trackerOf ip (l ++ [now])) := by
  have hfilter : l.filter (fun ts => now - cfg.RATE_LIMIT_WINDOW < ts) = l :=
    List.filter_eq_self.mpr (fun a ha => by simpa using hkeep a ha)
  have hofl : trackerOf ip (l ++ [now]) = [(ip, l ++ [now])] := by
    cases l <;> simp [trackerOf]
  unfold checkRateLimit
  rw [cleanupTracker_trackerOf _ _ _ (fun a ha => hkeep a ha),
    trackerGet_trackerOf, hfilter, trackerSet_trackerOf, hofl]

lemma runRateLimit_fill (cfg : Config) (ip : String) :
    ∀ (ts l : List Int),
      (∀ a ∈ l ++ ts, ∀ b ∈ ts, b - a < cfg.RATE_LIMIT_WINDOW) →
      (l ++ ts).length ≤ cfg.MAX_REQUESTS_PER_WINDOW →
      runRateLimit cfg ip (trackerOf ip l) ts =
        (List.replicate ts.length true, trackerOf ip (l ++ ts)) := by
  intro ts
  induction ts with
  | nil =>
    intro l _ _
    simp [runRateLimit]
  | cons t ts ih =>
    intro l hwin hlen
    have hkeep : ∀ a ∈ l, t - cfg.RATE_LIMIT_WINDOW < a := by
      intro a ha
      have := hwin a (List.mem_append_left _ ha) t (List.mem_cons_self _ _)
      omega
    have hlt : ¬ cfg.MAX_REQUESTS_PER_WINDOW ≤ l.length := by
      simp only [List.length_append, List.length_cons] at hlen
      omega
    have hcheck := checkRateLimit_single cfg ip l t hkeep
    rw [if_neg hlt] at hcheck
    have hwin' : ∀ a ∈ (l ++ [t]) ++ ts, ∀ b ∈ ts,
        b - a < cfg.RATE_LIMIT_WINDOW := by
      intro a ha b hb
      refine hwin a ?_ b (List.mem_cons_of_mem _ hb)
      simpa [List.append_assoc] using ha
    have hlen' : ((l ++ [t]) ++ ts).length ≤ cfg.MAX_REQUESTS_PER_WINDOW := by
      simp only [List.length_append, List.length_cons, List.length_singleton,
        List.length_nil] at hlen ⊢
      omega
    simp only [runRateLimit, hcheck]
    rw [ih (l ++ [t]) hwin' hlen']
    simp [List.replicate_succ, List.append_assoc]

lemma checkRateLimit_allows_after_expiry (cfg : Config) (ip : String)
    (ts : List Int) (u t1 : Int) (hmem : t1 ∈ ts)
    (hold : t1 ≤ u - cfg.RATE_LIMIT_WINDOW)
    (hlen : ts.length ≤ cfg.MAX_REQUESTS_PER_WINDOW) :
    (checkRateLimit cfg (trackerOf ip ts) ip u).1 = true := by
  have hpos : 0 < ts.length := List.length_pos.mpr (List.ne_nil_of_mem hmem)
  have hts : trackerOf ip ts = [(ip, ts)] := by
    cases ts with
    | nil => cases hmem
    | cons a l => simp [trackerOf]
  have hvlen :
      (ts.filter (fun x => u - cfg.RATE_LIMIT_WINDOW < x)).length < ts.length :=
    length_filter_lt_of_mem_not hmem (by simp; omega)
  rw [hts]
  unfold checkRateLimit
  by_cases hv : (ts.filter (fun x => u - cfg.RATE_LIMIT_WINDOW < x)).isEmpty
  · have hclean : cleanupTracker (u - cfg.RATE_LIMIT_WINDOW) [(ip, ts)] = [] := by
      simp [cleanupTracker, hv]
    rw [hclean]
    have hget : trackerGet ([] : Tracker) ip = [] := rfl
    rw [hget]
    rw [if_neg (by simp; omega)]
  · have hclean : cleanupTracker (u - cfg.RATE_LIMIT_WINDOW) [(ip, ts)] =
        [(ip, ts.filter (fun x => u - cfg.RATE_LIMIT_WINDOW < x))] := by
      simp [cleanupTracker, hv]
    rw [hclean]
    have hget : trackerGet
        [(ip, ts.filter (fun x => u - cfg.RATE_LIMIT_WINDOW < x))] ip =
        ts.filter (fun x => u - cfg.RATE_LIMIT_WINDOW < x) := by
      simp [trackerGet]
    rw [hget]
    have hidem : (ts.filter (fun x => u - cfg.RATE_LIMIT_WINDOW < x)).filter
        (fun x => u - cfg.RATE_LIMIT_WINDOW < x) =
        ts.filter (fun x => u - cfg.RATE_LIMIT_WINDOW < x) :=
      List.filter_eq_self.mpr (fun a ha => (List.mem_filter.mp ha).2)
    rw [hidem]
    rw [if_neg (by omega)]

/-- **C3**: from a fresh state, the first `MAX_REQUESTS_PER_WINDOW`
requests of one address, all within one window, are admitted; the next
request within the window is rejected by the router with 429 and a
`Retry-After` header; and any request arriving at least one window after
the earliest counted request is admitted again. -/
theorem c3_rate_limiter (cfg : Config) (ip : String) (times : List Int)
    (tN u t1 : Int) (req : Request) (handler : MessageHandler)
    (setupResult : Option Unit)
    (hip : req.ip = ip)
    (hlen : times.length = cfg.MAX_REQUESTS_PER_WINDOW)
    (hwin : ∀ a ∈ times ++ [tN], ∀ b ∈ times ++ [tN],
      b - a < cfg.RATE_LIMIT_WINDOW)
    (ht1 : t1 ∈ times) (hu : t1 + cfg.RATE_LIMIT_WINDOW ≤ u) :
    (runRateLimit cfg ip [] times).1 = List.replicate times.length true ∧
    (handleRequest cfg (runRateLimit cfg ip [] times).2 req tN handler
        setupResult).1 =
      ⟨429, "Rate limit exceeded", [("Retry-After", "60")]⟩ ∧
    (checkRateLimit cfg (runRateLimit cfg ip [] times).2 ip u).1 = true := by
  have h0 : trackerOf ip [] = [] := rfl
  have hfill := runRateLimit_fill cfg ip times []
    (fun a ha b hb => hwin a (List.mem_append_left _ (by simpa using ha))
      b (List.mem_append_left _ hb))
    (by simpa using Nat.le_of_eq hlen)
  rw [h0] at hfill
  have htrk : (runRateLimit cfg ip [] times).2 = trackerOf ip times := by
    rw [hfill]
    rfl
  have hkeepN : ∀ a ∈ times, tN - cfg.RATE_LIMIT_WINDOW < a := by
    intro a ha
    have := hwin a (List.mem_append_left _ ha) tN
      (List.mem_append_right _ (List.mem_singleton_self _))
    omega
  have hcheckN := checkRateLimit_single cfg ip times tN hkeepN
  rw [if_pos (Nat.le_of_eq hlen.symm)] at hcheckN
  refine ⟨by rw [hfill], ?_, ?_⟩
  · rw [htrk]
    unfold handleRequest
    rw [hip, hcheckN]
    rfl
  · rw [htrk]
    exact checkRateLimit_allows_after_expiry cfg ip times u t1 ht1 (by omega)
      (Nat.le_of_eq hlen)

def c3WitTimes : List Int := (List.range 30).map (fun i => (i : Int))

def c3WitReq : Request :=
  { method := "POST"
    pathname := "/webhook"
    contentType := some "application/json"
    body := WebhookBody.notJson
    ip := "9.9.9.9" }

theorem c3_rate_limiter_witness :
    (runRateLimit defaultConfig "9.9.9.9" [] c3WitTimes).1 =
      List.replicate c3WitTimes.length true ∧
    (handleRequest defaultConfig
        (runRateLimit defaultConfig "9.9.9.9" [] c3WitTimes).2 c3WitReq 100
        trivialHandler none).1 =
      ⟨429, "Rate limit exceeded", [("Retry-After", "60")]⟩ ∧
    (checkRateLimit defaultConfig
        (runRateLimit defaultConfig "9.9.9.9" [] c3WitTimes).2 "9.9.9.9"
        70000).1 = true :=
  c3_rate_limiter defaultConfig "9.9.9.9" c3WitTimes 100 70000 0 c3WitReq
    trivialHandler none rfl (by decide) (by decide) (by decide) (by decide)

end Worker
